import Mathlib

/-!
# paddle/phi/api/lib/tensor_utils.cc

A shallow embedding of `GetPlaceFromPtr` and `from_blob`, and the properties of
these two functions.

Conventions of the embedding

* A raw pointer `void*` is its address, a natural number; address `0` is `nullptr`.
* The preprocessor configuration (`PADDLE_WITH_CUDA`, `PADDLE_WITH_HIP`,
  `CUDA_VERSION`) and the collaborators that live outside this translation unit
  (the pointer-attribute query of the accelerator runtime, `SizeOf`,
  `Place::DebugString`, the `DenseTensorMeta` constructor) are fields of `Env`.
* A C++ exception is the `Except.error` result; everything the call did to the
  thread before throwing is kept in the returned `ThreadState`.
* `size_t` arithmetic is arithmetic modulo `2 ^ 64`.
* A release callback (`std::function<void(void*)>`) is identified by a natural
  number; every invocation of a callback is appended to `ThreadState.calls`.
-/

namespace paddle

/-- Raw pointer `void*`, as its address. -/
abbrev Ptr := Nat

/-- The null pointer. -/
def nullptr : Ptr := 0

/-- Number of values of `size_t` (64-bit). -/
def SIZE_T_MOD : Nat := 2 ^ 64

namespace phi

/-- The `phi::AllocationType` enumerators: the three this file names, and the
remaining ones (pinned, XPU, custom, ...) by their tag. -/
inductive AllocationType where
  | UNDEFINED
  | CPU
  | GPU
  | OTHER (tag : Nat)
  deriving DecidableEq, Repr

/-- Modelled from the spec: `phi::Place` tags a memory space by its kind and a
device index; equality compares both. -/
structure Place where
  alloc_type : AllocationType
  device : Int
  deriving DecidableEq, Repr

/-- The method `Place::GetType()`. -/
def Place.GetType (p : Place) : AllocationType := p.alloc_type

/-- The host place `phi::CPUPlace()`. -/
def CPUPlace : Place := ⟨AllocationType.CPU, 0⟩

/-- The device place `phi::GPUPlace(device)` of the given index. -/
def GPUPlace (device : Int) : Place := ⟨AllocationType.GPU, device⟩

/-- The enumeration `phi::DataType`, by the value of the enumerator. -/
structure DataType where
  code : Nat
  deriving DecidableEq, Repr

/-- The enumeration `phi::DataLayout`, by the value of the enumerator. -/
structure DataLayout where
  code : Nat
  deriving DecidableEq, Repr

/-- The class `phi::IntArray`: the dimension data and the flag telling that it was built
from a tensor. -/
structure IntArray where
  data : List Int
  is_from_tensor : Bool
  deriving DecidableEq, Repr

/-- The method `IntArray::GetData()`. -/
def IntArray.GetData (a : IntArray) : List Int := a.data

/-- The method `IntArray::FromTensor()`. -/
def IntArray.FromTensor (a : IntArray) : Bool := a.is_from_tensor

/-- The class `phi::DDim`: the ordered dimension sizes. -/
abbrev DDim := List Int

/-- Modelled from the spec: `phi::make_ddim` builds the dimensions from the
shape data, in order. -/
def make_ddim (v : List Int) : DDim := v

/-- Modelled from the spec: `phi::product` is the product of all dimensions. -/
def product (d : DDim) : Int := d.prod

/-- The record `phi::DenseTensorMeta`: the fields `from_blob` sets or reads. -/
structure DenseTensorMeta where
  dtype : DataType
  dims : DDim
  layout : DataLayout
  is_scalar : Bool
  deriving DecidableEq, Repr

/-- Error kinds of `phi::errors` raised in this file. -/
inductive ErrorCode where
  | InvalidArgument
  | Unimplemented
  deriving DecidableEq, Repr

/-- The value `phi::ErrorSummary` as built at the throw site: the error kind, the format
string (first argument of the `phi::errors` constructor) and the remaining
arguments handed to it, in order. -/
structure ErrorSummary where
  code : ErrorCode
  fmt : String
  args : List String
  deriving DecidableEq, Repr

/-- The constructor `phi::errors::InvalidArgument(fmt, args...)`. -/
def errors.InvalidArgument (fmt : String) (args : List String) : ErrorSummary :=
  ⟨ErrorCode.InvalidArgument, fmt, args⟩

/-- The constructor `phi::errors::Unimplemented(fmt, args...)`. -/
def errors.Unimplemented (fmt : String) (args : List String) : ErrorSummary :=
  ⟨ErrorCode.Unimplemented, fmt, args⟩

/-- The type `AllocationDeleter = void (*)(phi::Allocation*)`: the only two values
`from_blob` produces, the null function pointer and the capture-less lambda
`[](phi::Allocation* p) { g_deleter(p->ptr()); }`. -/
inductive AllocationDeleter where
  | null
  | call_g_deleter
  deriving DecidableEq, Repr

/-- The object `phi::Allocation(ptr, size, deleter, place)`. -/
structure Allocation where
  ptr : Ptr
  size : Nat
  deleter : AllocationDeleter
  place : Place
  deriving DecidableEq, Repr

/-- The object `phi::DenseTensor(alloc, meta)`. -/
structure DenseTensor where
  holder : Allocation
  meta : DenseTensorMeta
  deriving DecidableEq, Repr

end phi

open phi

/-- The handle `paddle::Tensor` over a dense tensor implementation. -/
structure Tensor where
  impl : DenseTensor
  deriving DecidableEq, Repr

/-- The type `paddle::Deleter = std::function<void(void*)>`: `none` is the empty
function object, `some f` the callable identified by `f`. -/
abbrev Deleter := Option Nat

/-- Memory kinds reported by `cudaPointerGetAttributes` /
`hipPointerGetAttributes`. -/
inductive MemoryType where
  | Unregistered
  | Host
  | Device
  | Managed
  deriving DecidableEq, Repr

/-- Outcome of the pointer-attribute query: `status` is true for
`cudaSuccess` / `hipSuccess`; `type` and `device` are the attribute fields. -/
structure PointerAttributes where
  status : Bool
  type : MemoryType
  device : Int
  deriving DecidableEq, Repr

/-- Build configuration and external collaborators of the translation unit. -/
structure Env where
  /-- True when `PADDLE_WITH_CUDA` is defined. -/
  PADDLE_WITH_CUDA : Bool
  /-- True when `PADDLE_WITH_HIP` is defined. -/
  PADDLE_WITH_HIP : Bool
  /-- The value of the macro `CUDA_VERSION`. -/
  CUDA_VERSION : Nat
  /-- The accelerator runtime oracle `cudaPointerGetAttributes` /
  `hipPointerGetAttributes`. -/
  PointerGetAttributes : Ptr → PointerAttributes
  /-- The function `phi::SizeOf(dtype)`, the element size in bytes. -/
  SizeOf : DataType → Nat
  /-- The result of `SizeOf` is a `size_t`. -/
  SizeOf_lt : ∀ d, SizeOf d < SIZE_T_MOD
  /-- The value of `is_scalar` in the record built by
  `phi::DenseTensorMeta(dtype, dims, layout)`. -/
  meta_is_scalar : DataType → DDim → DataLayout → Bool
  /-- The method `Place::DebugString()`. -/
  DebugString : Place → String

/-- The state of the calling thread that `from_blob` and the destruction of an
allocation read or write. -/
structure ThreadState where
  /-- The slot `static thread_local Deleter g_deleter`; `none` until its
  initialiser has run on this thread. -/
  g_deleter : Option Nat
  /-- The `phi::Allocation` objects constructed and not yet destroyed. -/
  live : List Allocation
  /-- Every release-callback invocation so far: the callback and its argument. -/
  calls : List (Nat × Ptr)
  deriving DecidableEq, Repr

/-- A thread on which nothing has happened yet. -/
def ThreadState.init : ThreadState := ⟨none, [], []⟩

/-- The function `phi::Place GetPlaceFromPtr(void* data)`, lines 32-55. -/
def GetPlaceFromPtr (env : Env) (data : Ptr) : Except ErrorSummary Place :=
  if env.PADDLE_WITH_CUDA || env.PADDLE_WITH_HIP then
    if env.PADDLE_WITH_CUDA then
      if env.CUDA_VERSION ≥ 10000 then
        let attr := env.PointerGetAttributes data
        if attr.status && attr.type == MemoryType.Device then
          Except.ok (GPUPlace attr.device)
        else
          Except.ok CPUPlace
      else
        Except.error (errors.Unimplemented
          "The GetPlaceFromPtr() method is only supported when CUDA version >= 10.0." [])
    else
      let attr := env.PointerGetAttributes data
      if attr.status && attr.type == MemoryType.Device then
        Except.ok (GPUPlace attr.device)
      else
        Except.ok CPUPlace
  else
    Except.ok CPUPlace

/-- Lines 73-89 of `from_blob`: the place `data_place` the allocation will
record, or the error thrown while determining it. -/
def from_blob_data_place (env : Env) (data : Ptr) (place : Place) :
    Except ErrorSummary Place :=
  if place.GetType = AllocationType.UNDEFINED ∨ place.GetType = AllocationType.CPU ∨
      place.GetType = AllocationType.GPU then
    match GetPlaceFromPtr env data with
    | Except.error e => Except.error e
    | Except.ok data_place =>
      if place.GetType ≠ AllocationType.UNDEFINED then
        if data_place = place then
          Except.ok data_place
        else
          Except.error (errors.InvalidArgument
            "Specified place does not match place of data. "
            ["Specified: %s, Exptected: %s.", env.DebugString data_place,
              env.DebugString place])
      else
        Except.ok data_place
  else
    Except.ok place

/-- The constructor call `phi::DenseTensorMeta(dtype, dims, layout)`, line 92. -/
def make_meta (env : Env) (dtype : DataType) (dims : DDim) (layout : DataLayout) :
    DenseTensorMeta :=
  ⟨dtype, dims, layout, env.meta_is_scalar dtype dims layout⟩

/-- Line 94: `size_t size = SizeOf(dtype) * (meta.is_scalar ? 1 : product(meta.dims))`.
The `int64_t` factor is converted to `size_t` and the product is taken in
`size_t`, that is modulo `2 ^ 64`. -/
def from_blob_size (env : Env) (dtype : DataType) (m : DenseTensorMeta) : Nat :=
  (((env.SizeOf dtype : Int) * (if m.is_scalar then 1 else product m.dims)) %
    (SIZE_T_MOD : Int)).toNat

/-- Lines 96-100: the function pointer given to the allocation, and the thread
state after the block. The initialiser of the `static thread_local` slot runs
only the first time control passes through its declaration on the thread. -/
def from_blob_alloc_deleter (deleter : Deleter) (s : ThreadState) :
    AllocationDeleter × ThreadState :=
  match deleter with
  | none => (AllocationDeleter.null, s)
  | some d =>
    match s.g_deleter with
    | none => (AllocationDeleter.call_g_deleter, { s with g_deleter := some d })
    | some _ => (AllocationDeleter.call_g_deleter, s)

/-- The function `paddle::from_blob(data, shape, dtype, layout, place, deleter)`, lines 59-106,
run on a thread in state `s`: the tensor returned or the error thrown, and the
state of the thread afterwards. -/
def from_blob (env : Env) (data : Ptr) (shape : IntArray) (dtype : DataType)
    (layout : DataLayout) (place : Place) (deleter : Deleter) (s : ThreadState) :
    Except ErrorSummary Tensor × ThreadState :=
  if data = nullptr then
    (Except.error (errors.InvalidArgument "data can not be nullptr." []), s)
  else if shape.FromTensor ≠ false then
    (Except.error (errors.InvalidArgument "shape cannot be constructed from a Tensor." []), s)
  else
    match from_blob_data_place env data place with
    | Except.error e => (Except.error e, s)
    | Except.ok data_place =>
      let m := make_meta env dtype (make_ddim shape.GetData) layout
      let size := from_blob_size env dtype m
      let r := from_blob_alloc_deleter deleter s
      let alloc : Allocation := ⟨data, size, r.1, data_place⟩
      (Except.ok ⟨⟨alloc, m⟩⟩, { r.2 with live := alloc :: r.2.live })

/-- Modelled from the spec: the destructor of `phi::Allocation` (not in this
translation unit) invokes the release action, when there is one, once, and the
object is gone afterwards. The release action built by `from_blob` is the
lambda that calls the thread's `g_deleter` on `p->ptr()`; the slot is always
initialised on the thread that built such an allocation, and on a thread whose
slot is not initialised no callback is recorded. -/
def Allocation_destroy (a : Allocation) (s : ThreadState) : ThreadState :=
  let s1 : ThreadState :=
    match a.deleter with
    | AllocationDeleter.null => s
    | AllocationDeleter.call_g_deleter =>
      match s.g_deleter with
      | some d => { s with calls := s.calls ++ [(d, a.ptr)] }
      | none => s
  { s1 with live := s1.live.erase a }

/-! ## Concrete environments used to exercise the definitions -/

/-- Example element sizes: enumerator 10 is a 4-byte type, enumerator 11 an
8-byte type, every other one a 1-byte type. -/
def example_SizeOf (d : DataType) : Nat :=
  if d.code = 10 then 4 else if d.code = 11 then 8 else 1

/-- Example textual form of a place. -/
def example_DebugString (p : Place) : String :=
  match p.alloc_type with
  | AllocationType.UNDEFINED => "Place(undefined:" ++ toString p.device ++ ")"
  | AllocationType.CPU => "Place(cpu)"
  | AllocationType.GPU => "Place(gpu:" ++ toString p.device ++ ")"
  | AllocationType.OTHER k => "Place(" ++ toString k ++ ":" ++ toString p.device ++ ")"

/-- Example pointer-attribute oracle: addresses from 0x7000 on are memory of
device 1, the query fails for every other address. -/
def example_oracle (p : Ptr) : PointerAttributes :=
  if 0x7000 ≤ p then ⟨true, MemoryType.Device, 1⟩ else ⟨false, MemoryType.Unregistered, 0⟩

/-- Example build: the given configuration macros, the example oracle and
sizes, and a meta constructor that marks the empty dimension list as scalar. -/
def example_env (cuda hip : Bool) (version : Nat) : Env where
  PADDLE_WITH_CUDA := cuda
  PADDLE_WITH_HIP := hip
  CUDA_VERSION := version
  PointerGetAttributes := example_oracle
  SizeOf := example_SizeOf
  SizeOf_lt := fun d => by
    unfold example_SizeOf SIZE_T_MOD
    split
    · norm_num
    · split <;> norm_num
  meta_is_scalar := fun _ dims _ => dims.isEmpty
  DebugString := example_DebugString

/-- A 4-byte element type of the example sizes. -/
def example_FLOAT32 : DataType := ⟨10⟩

/-- A layout enumerator (NCHW) for the examples. -/
def example_NCHW : DataLayout := ⟨2⟩

/-! ## Properties -/

/-- C1: a call of `from_blob` with a null data pointer fails with an
InvalidArgument error, whatever the other arguments, and constructs no
Allocation: the thread state, live allocations included, is unchanged. -/
theorem C1_null_pointer_rejected (env : Env) (shape : IntArray) (dtype : DataType)
    (layout : DataLayout) (place : Place) (deleter : Deleter) (s : ThreadState) :
    (∃ e, (from_blob env nullptr shape dtype layout place deleter s).1 = Except.error e ∧
      e.code = ErrorCode.InvalidArgument) ∧
    (from_blob env nullptr shape dtype layout place deleter s).2 = s ∧
    (from_blob env nullptr shape dtype layout place deleter s).2.live = s.live := by
  simp [from_blob, errors.InvalidArgument]

/-! ### Shape of a call that gets past the argument checks -/

theorem from_blob_of_data_place (env : Env) (data : Ptr) (shape : IntArray)
    (dtype : DataType) (layout : DataLayout) (place : Place) (deleter : Deleter)
    (s : ThreadState) (dp : Place) (hdata : data ≠ nullptr)
    (hshape : shape.FromTensor = false)
    (hdp : from_blob_data_place env data place = Except.ok dp) :
    from_blob env data shape dtype layout place deleter s =
      (Except.ok ⟨⟨⟨data, from_blob_size env dtype
          (make_meta env dtype (make_ddim shape.GetData) layout),
          (from_blob_alloc_deleter deleter s).1, dp⟩,
          make_meta env dtype (make_ddim shape.GetData) layout⟩⟩,
        { (from_blob_alloc_deleter deleter s).2 with
          live := (⟨data, from_blob_size env dtype
            (make_meta env dtype (make_ddim shape.GetData) layout),
            (from_blob_alloc_deleter deleter s).1, dp⟩ : Allocation) ::
              (from_blob_alloc_deleter deleter s).2.live }) := by
  simp [from_blob, hdata, hshape, hdp]

theorem from_blob_error_of_data_place (env : Env) (data : Ptr) (shape : IntArray)
    (dtype : DataType) (layout : DataLayout) (place : Place) (deleter : Deleter)
    (s : ThreadState) (e : ErrorSummary) (hdata : data ≠ nullptr)
    (hshape : shape.FromTensor = false)
    (hdp : from_blob_data_place env data place = Except.error e) :
    from_blob env data shape dtype layout place deleter s = (Except.error e, s) := by
  simp [from_blob, hdata, hshape, hdp]

theorem from_blob_ok_inv (env : Env) (data : Ptr) (shape : IntArray)
    (dtype : DataType) (layout : DataLayout) (place : Place) (deleter : Deleter)
    (s : ThreadState) (t : Tensor)
    (h : (from_blob env data shape dtype layout place deleter s).1 = Except.ok t) :
    data ≠ nullptr ∧ shape.FromTensor = false ∧
    ∃ dp, from_blob_data_place env data place = Except.ok dp ∧
      t = ⟨⟨⟨data, from_blob_size env dtype
          (make_meta env dtype (make_ddim shape.GetData) layout),
          (from_blob_alloc_deleter deleter s).1, dp⟩,
          make_meta env dtype (make_ddim shape.GetData) layout⟩⟩ := by
  by_cases hdata : data = nullptr
  · simp [from_blob, hdata] at h
  · by_cases hshape : shape.FromTensor = false
    · refine ⟨hdata, hshape, ?_⟩
      cases hdp : from_blob_data_place env data place with
      | error e =>
        rw [from_blob_error_of_data_place env data shape dtype layout place deleter s e
          hdata hshape hdp] at h
        simp at h
      | ok dp =>
        rw [from_blob_of_data_place env data shape dtype layout place deleter s dp
          hdata hshape hdp] at h
        refine ⟨dp, rfl, ?_⟩
        simp only [Except.ok.injEq] at h
        exact h.symm
    · simp [from_blob, hdata, hshape] at h


/-! ### What the resolver returns -/

theorem GetPlaceFromPtr_ok_of_not_device (env : Env) (data : Ptr) (r : Place)
    (h : GetPlaceFromPtr env data = Except.ok r)
    (hnd : ¬ ((env.PointerGetAttributes data).status = true ∧
      (env.PointerGetAttributes data).type = MemoryType.Device)) :
    r = CPUPlace := by
  unfold GetPlaceFromPtr at h
  dsimp only at h
  split_ifs at h <;> simp_all

theorem GetPlaceFromPtr_ok_of_device (env : Env) (data : Ptr) (r : Place)
    (h : GetPlaceFromPtr env data = Except.ok r)
    (hacc : env.PADDLE_WITH_CUDA = true ∨ env.PADDLE_WITH_HIP = true)
    (hst : (env.PointerGetAttributes data).status = true)
    (hty : (env.PointerGetAttributes data).type = MemoryType.Device) :
    r = GPUPlace (env.PointerGetAttributes data).device := by
  unfold GetPlaceFromPtr at h
  dsimp only at h
  split_ifs at h <;> simp_all

/-! ### The byte size -/

theorem from_blob_size_eq (env : Env) (dtype : DataType) (m : DenseTensorMeta) :
    ((from_blob_size env dtype m : Nat) : Int) =
      ((env.SizeOf dtype : Int) * (if m.is_scalar then 1 else product m.dims)) %
        (2 ^ 64 : Int) := by
  unfold from_blob_size SIZE_T_MOD
  rw [Int.toNat_of_nonneg]
  · norm_num
  · apply Int.emod_nonneg
    norm_num

theorem prod_nonneg_of_forall_nonneg (l : List Int) (h : ∀ d ∈ l, 0 ≤ d) : 0 ≤ l.prod := by
  induction l with
  | nil => simp
  | cons a l ih =>
    rw [List.prod_cons]
    exact mul_nonneg (h a (List.mem_cons_self a l))
      (ih (fun d hd => h d (List.mem_cons_of_mem a hd)))

/-! ### The claims -/

/-- C4 (as amended): for a successful call of `from_blob` whose meta is not
scalar and whose shape is a list of non-negative dimensions, the byte size
stored in the allocation is `SizeOf(dtype)` times the product of the
dimensions reduced modulo `2 ^ 64` (the range of `size_t`); it is exactly that
product whenever the product is below `2 ^ 64`, and for shape `[2, 3, 4]` it is
`24 * SizeOf(dtype)` whenever that is below `2 ^ 64`. -/
theorem C4_byte_size_non_scalar (env : Env) (data : Ptr) (shape : IntArray)
    (dtype : DataType) (layout : DataLayout) (place : Place) (deleter : Deleter)
    (s : ThreadState) (t : Tensor)
    (hok : (from_blob env data shape dtype layout place deleter s).1 = Except.ok t)
    (hns : t.impl.meta.is_scalar = false)
    (hnn : ∀ d ∈ shape.GetData, 0 ≤ d) :
    ((t.impl.holder.size : Nat) : Int) =
        ((env.SizeOf dtype : Int) * product (make_ddim shape.GetData)) % (2 ^ 64 : Int) ∧
      ((env.SizeOf dtype : Int) * product (make_ddim shape.GetData) < 2 ^ 64 →
        ((t.impl.holder.size : Nat) : Int) =
          (env.SizeOf dtype : Int) * product (make_ddim shape.GetData)) ∧
      (shape.GetData = [2, 3, 4] → 24 * env.SizeOf dtype < 2 ^ 64 →
        t.impl.holder.size = 24 * env.SizeOf dtype) := by
  obtain ⟨_, _, dp, _, ht⟩ :=
    from_blob_ok_inv env data shape dtype layout place deleter s t hok
  subst ht
  have hsc : (make_meta env dtype (make_ddim shape.GetData) layout).is_scalar = false := hns
  have hsize : ((from_blob_size env dtype
      (make_meta env dtype (make_ddim shape.GetData) layout) : Nat) : Int) =
      ((env.SizeOf dtype : Int) * product (make_ddim shape.GetData)) % (2 ^ 64 : Int) := by
    rw [from_blob_size_eq, hsc]
    simp [make_meta]
  have hprod : 0 ≤ product (make_ddim shape.GetData) :=
    prod_nonneg_of_forall_nonneg _ hnn
  have hmul : 0 ≤ (env.SizeOf dtype : Int) * product (make_ddim shape.GetData) :=
    mul_nonneg (Int.ofNat_nonneg _) hprod
  refine ⟨hsize, ?_, ?_⟩
  · intro hlt
    show ((from_blob_size env dtype
      (make_meta env dtype (make_ddim shape.GetData) layout) : Nat) : Int) = _
    rw [hsize, Int.emod_eq_of_lt hmul hlt]
  · intro h234 h24
    show from_blob_size env dtype
      (make_meta env dtype (make_ddim shape.GetData) layout) = _
    have h1 : product (make_ddim shape.GetData) = 24 := by
      rw [h234]
      simp [product, make_ddim]
    have hlt : (env.SizeOf dtype : Int) * 24 < 2 ^ 64 := by
      have : ((24 * env.SizeOf dtype : Nat) : Int) < ((2 ^ 64 : Nat) : Int) :=
        Int.ofNat_lt.mpr h24
      push_cast at this
      linarith
    have h2 : ((from_blob_size env dtype
        (make_meta env dtype (make_ddim shape.GetData) layout) : Nat) : Int) =
        ((24 * env.SizeOf dtype : Nat) : Int) := by
      rw [hsize, h1, Int.emod_eq_of_lt (by positivity) hlt]
      push_cast
      ring
    exact Int.ofNat_inj.mp h2

/-- Witness of C4: shape `[2, 3, 4]` of a 4-byte type in a build without
accelerator support is stored with byte size 96. -/
theorem C4_byte_size_non_scalar_witness :
    ∃ t, (from_blob (example_env false false 0) 0x1000 ⟨[2, 3, 4], false⟩ example_FLOAT32
        example_NCHW CPUPlace none ThreadState.init).1 = Except.ok t ∧
      t.impl.meta.is_scalar = false ∧ t.impl.holder.size = 24 * 4 :=
  ⟨⟨⟨⟨0x1000, 96, AllocationDeleter.null, CPUPlace⟩,
      ⟨example_FLOAT32, [2, 3, 4], example_NCHW, false⟩⟩⟩, rfl, rfl,
    (C4_byte_size_non_scalar (example_env false false 0) 0x1000 ⟨[2, 3, 4], false⟩
      example_FLOAT32 example_NCHW CPUPlace none ThreadState.init
      ⟨⟨⟨0x1000, 96, AllocationDeleter.null, CPUPlace⟩,
        ⟨example_FLOAT32, [2, 3, 4], example_NCHW, false⟩⟩⟩
      rfl rfl (by decide)).2.2 rfl (by decide)⟩

/-- Counterexample to C4 as stated: wrapping a host pointer with the non-scalar
shape `[2 ^ 62]` of a 4-byte type succeeds, and the byte size stored in the
allocation is 0, not `4 * 2 ^ 62`. -/
theorem C4_counterexample :
    (from_blob (example_env false false 0) 0x1000 ⟨[2 ^ 62], false⟩ example_FLOAT32
        example_NCHW CPUPlace none ThreadState.init).1 =
      Except.ok ⟨⟨⟨0x1000, 0, AllocationDeleter.null, CPUPlace⟩,
        ⟨example_FLOAT32, [2 ^ 62], example_NCHW, false⟩⟩⟩ ∧
    (∀ d ∈ ([2 ^ 62] : List Int), 0 ≤ d) ∧
    (example_env false false 0).SizeOf example_FLOAT32 = 4 ∧
    ((0 : Nat) : Int) ≠
      ((example_env false false 0).SizeOf example_FLOAT32 : Int) *
        product (make_ddim [2 ^ 62]) := by
  refine ⟨rfl, by decide, rfl, by decide⟩

/-- C5: for a successful call of `from_blob` whose meta is scalar, the byte
size stored in the allocation is `SizeOf(dtype)`, hence not 0 for an element
type of non-zero size. -/
theorem C5_byte_size_scalar (env : Env) (data : Ptr) (shape : IntArray)
    (dtype : DataType) (layout : DataLayout) (place : Place) (deleter : Deleter)
    (s : ThreadState) (t : Tensor)
    (hok : (from_blob env data shape dtype layout place deleter s).1 = Except.ok t)
    (hsc : t.impl.meta.is_scalar = true) :
    t.impl.holder.size = env.SizeOf dtype ∧
      (env.SizeOf dtype ≠ 0 → t.impl.holder.size ≠ 0) := by
  obtain ⟨_, _, dp, _, ht⟩ :=
    from_blob_ok_inv env data shape dtype layout place deleter s t hok
  subst ht
  have hsc2 : (make_meta env dtype (make_ddim shape.GetData) layout).is_scalar = true := hsc
  have hlt : ((env.SizeOf dtype : Nat) : Int) < 2 ^ 64 := by
    have := Int.ofNat_lt.mpr (env.SizeOf_lt dtype)
    simpa [SIZE_T_MOD] using this
  have hsize : from_blob_size env dtype
      (make_meta env dtype (make_ddim shape.GetData) layout) = env.SizeOf dtype := by
    apply Int.ofNat_inj.mp
    rw [from_blob_size_eq, hsc2]
    simp only [if_true, mul_one]
    exact Int.emod_eq_of_lt (Int.ofNat_nonneg _) hlt
  refine ⟨hsize, fun h0 => ?_⟩
  show from_blob_size env dtype
    (make_meta env dtype (make_ddim shape.GetData) layout) ≠ 0
  rw [hsize]
  exact h0

/-- Witness of C5: the empty shape, which the example meta constructor marks
as scalar, of a 4-byte type is stored with byte size 4. -/
theorem C5_byte_size_scalar_witness :
    ∃ t, (from_blob (example_env false false 0) 0x1000 ⟨[], false⟩ example_FLOAT32
        example_NCHW CPUPlace none ThreadState.init).1 = Except.ok t ∧
      t.impl.meta.is_scalar = true ∧ t.impl.holder.size = 4 :=
  ⟨⟨⟨⟨0x1000, 4, AllocationDeleter.null, CPUPlace⟩,
      ⟨example_FLOAT32, [], example_NCHW, true⟩⟩⟩, rfl, rfl,
    (C5_byte_size_scalar (example_env false false 0) 0x1000 ⟨[], false⟩
      example_FLOAT32 example_NCHW CPUPlace none ThreadState.init
      ⟨⟨⟨0x1000, 4, AllocationDeleter.null, CPUPlace⟩,
        ⟨example_FLOAT32, [], example_NCHW, true⟩⟩⟩ rfl rfl).1⟩

/-- C6 (evaluation at the failing input): on a fresh thread, a first call of
`from_blob` with release callback 7 on pointer 0x10 leaves callback 7 in the
thread-local slot; a second call with release callback 9 on pointer 0x20
succeeds and leaves the slot as it was; destroying the allocation of the
second call invokes callback 7 (not 9) on 0x20. -/
theorem C6_second_call_runs_first_callback :
    (from_blob (example_env false false 0) 0x10 ⟨[2], false⟩ example_FLOAT32
        example_NCHW CPUPlace (some 7) ThreadState.init).2 =
      ⟨some 7, [⟨0x10, 8, AllocationDeleter.call_g_deleter, CPUPlace⟩], []⟩ ∧
    from_blob (example_env false false 0) 0x20 ⟨[2], false⟩ example_FLOAT32
        example_NCHW CPUPlace (some 9)
        ⟨some 7, [⟨0x10, 8, AllocationDeleter.call_g_deleter, CPUPlace⟩], []⟩ =
      (Except.ok ⟨⟨⟨0x20, 8, AllocationDeleter.call_g_deleter, CPUPlace⟩,
          ⟨example_FLOAT32, [2], example_NCHW, false⟩⟩⟩,
        ⟨some 7, [⟨0x20, 8, AllocationDeleter.call_g_deleter, CPUPlace⟩,
          ⟨0x10, 8, AllocationDeleter.call_g_deleter, CPUPlace⟩], []⟩) ∧
    (Allocation_destroy ⟨0x20, 8, AllocationDeleter.call_g_deleter, CPUPlace⟩
        ⟨some 7, [⟨0x20, 8, AllocationDeleter.call_g_deleter, CPUPlace⟩,
          ⟨0x10, 8, AllocationDeleter.call_g_deleter, CPUPlace⟩], []⟩).calls =
      [(7, 0x20)] ∧
    ([(7, 0x20)] : List (Nat × Ptr)) ≠ [(9, 0x20)] := by
  refine ⟨rfl, rfl, by decide, by decide⟩

/-- C7: a successful call of `from_blob` with an empty deleter builds the
allocation with the null release action and leaves the thread-local slot
untouched, so destroying the allocation, in whatever state the thread is
(also one whose slot holds a callback of an earlier call), invokes no
callback. -/
theorem C7_no_deleter_no_callback (env : Env) (data : Ptr) (shape : IntArray)
    (dtype : DataType) (layout : DataLayout) (place : Place) (s : ThreadState)
    (t : Tensor)
    (hok : (from_blob env data shape dtype layout place none s).1 = Except.ok t) :
    t.impl.holder.deleter = AllocationDeleter.null ∧
      (from_blob env data shape dtype layout place none s).2.g_deleter = s.g_deleter ∧
      (from_blob env data shape dtype layout place none s).2.calls = s.calls ∧
      ∀ s2 : ThreadState, (Allocation_destroy t.impl.holder s2).calls = s2.calls := by
  obtain ⟨hdata, hshape, dp, hdp, ht⟩ :=
    from_blob_ok_inv env data shape dtype layout place none s t hok
  subst ht
  rw [from_blob_of_data_place env data shape dtype layout place none s dp hdata hshape hdp]
  refine ⟨rfl, rfl, rfl, fun s2 => ?_⟩
  simp [Allocation_destroy, from_blob_alloc_deleter]

/-- Witness of C7: on a thread whose slot already holds callback 7, a call
without deleter gives an allocation with the null release action. -/
theorem C7_no_deleter_no_callback_witness :
    ∃ t, (from_blob (example_env false false 0) 0x20 ⟨[2], false⟩ example_FLOAT32
        example_NCHW CPUPlace none ⟨some 7, [], []⟩).1 = Except.ok t ∧
      t.impl.holder.deleter = AllocationDeleter.null ∧
      (Allocation_destroy t.impl.holder ⟨some 7, [t.impl.holder], []⟩).calls = [] :=
  ⟨⟨⟨⟨0x20, 8, AllocationDeleter.null, CPUPlace⟩,
      ⟨example_FLOAT32, [2], example_NCHW, false⟩⟩⟩, rfl, rfl,
    (C7_no_deleter_no_callback (example_env false false 0) 0x20 ⟨[2], false⟩
      example_FLOAT32 example_NCHW CPUPlace ⟨some 7, [], []⟩
      ⟨⟨⟨0x20, 8, AllocationDeleter.null, CPUPlace⟩,
        ⟨example_FLOAT32, [2], example_NCHW, false⟩⟩⟩ rfl).2.2.2
      ⟨some 7, [⟨0x20, 8, AllocationDeleter.null, CPUPlace⟩], []⟩⟩

/-- C8: the tensor returned by a successful call of `from_blob` is a dense
tensor whose allocation holds the data argument itself as its pointer and
whose meta carries the supplied dtype, the dimensions `make_ddim` builds from
the shape data, and the supplied layout. -/
theorem C8_tensor_aliases_data (env : Env) (data : Ptr) (shape : IntArray)
    (dtype : DataType) (layout : DataLayout) (place : Place) (deleter : Deleter)
    (s : ThreadState) (t : Tensor)
    (hok : (from_blob env data shape dtype layout place deleter s).1 = Except.ok t) :
    t.impl.holder.ptr = data ∧ t.impl.meta.dtype = dtype ∧
      t.impl.meta.dims = make_ddim shape.GetData ∧ t.impl.meta.layout = layout ∧
      (from_blob env data shape dtype layout place deleter s).2.live =
        t.impl.holder :: s.live := by
  obtain ⟨hdata, hshape, dp, hdp, ht⟩ :=
    from_blob_ok_inv env data shape dtype layout place deleter s t hok
  subst ht
  rw [from_blob_of_data_place env data shape dtype layout place deleter s dp hdata
    hshape hdp]
  refine ⟨rfl, rfl, rfl, rfl, ?_⟩
  cases deleter with
  | none => rfl
  | some d =>
    cases hg : s.g_deleter <;> simp [from_blob_alloc_deleter, hg]

/-- Witness of C8: wrapping pointer 0x7000 with shape `[2, 3, 4]` in a CUDA 11
build gives a tensor over that very pointer with the supplied meta. -/
theorem C8_tensor_aliases_data_witness :
    ∃ t, (from_blob (example_env true false 11000) 0x7000 ⟨[2, 3, 4], false⟩
        example_FLOAT32 example_NCHW (GPUPlace 1) (some 7) ThreadState.init).1 =
          Except.ok t ∧
      t.impl.holder.ptr = 0x7000 ∧ t.impl.meta.dtype = example_FLOAT32 ∧
      t.impl.meta.dims = [2, 3, 4] ∧ t.impl.meta.layout = example_NCHW :=
  ⟨⟨⟨⟨0x7000, 96, AllocationDeleter.call_g_deleter, GPUPlace 1⟩,
      ⟨example_FLOAT32, [2, 3, 4], example_NCHW, false⟩⟩⟩, rfl,
    (C8_tensor_aliases_data (example_env true false 11000) 0x7000 ⟨[2, 3, 4], false⟩
      example_FLOAT32 example_NCHW (GPUPlace 1) (some 7) ThreadState.init
      ⟨⟨⟨0x7000, 96, AllocationDeleter.call_g_deleter, GPUPlace 1⟩,
        ⟨example_FLOAT32, [2, 3, 4], example_NCHW, false⟩⟩⟩ rfl).1,
    rfl, rfl, rfl⟩

/-- C9: a call of `from_blob` whose shape is flagged as built from a tensor
fails with an InvalidArgument error, whatever the other arguments (the null
pointer included), and leaves the thread state unchanged. -/
theorem C9_tensor_shape_rejected (env : Env) (data : Ptr) (shape : IntArray)
    (dtype : DataType) (layout : DataLayout) (place : Place) (deleter : Deleter)
    (s : ThreadState) (hft : shape.FromTensor = true) :
    (∃ e, (from_blob env data shape dtype layout place deleter s).1 = Except.error e ∧
      e.code = ErrorCode.InvalidArgument) ∧
    (from_blob env data shape dtype layout place deleter s).2 = s := by
  by_cases hdata : data = nullptr
  · simp [from_blob, hdata, errors.InvalidArgument]
  · simp [from_blob, hdata, hft, errors.InvalidArgument]

/-- Witness of C9: a tensor-derived shape `[2, 3]` over a valid host pointer is
rejected. -/
theorem C9_tensor_shape_rejected_witness :
    (∃ e, (from_blob (example_env false false 0) 0x1000 ⟨[2, 3], true⟩ example_FLOAT32
        example_NCHW CPUPlace none ThreadState.init).1 = Except.error e ∧
      e.code = ErrorCode.InvalidArgument) ∧
    (from_blob (example_env false false 0) 0x1000 ⟨[2, 3], true⟩ example_FLOAT32
        example_NCHW CPUPlace none ThreadState.init).2 = ThreadState.init :=
  C9_tensor_shape_rejected (example_env false false 0) 0x1000 ⟨[2, 3], true⟩
    example_FLOAT32 example_NCHW CPUPlace none ThreadState.init rfl


/-- C10: a call of `from_blob` with a non-null pointer, a literal shape and a
caller place whose kind is none of UNDEFINED, CPU and GPU succeeds, the
allocation records the caller's place, and `GetPlaceFromPtr` has no part in
it: the call succeeds in every build, also one where `GetPlaceFromPtr` throws,
and its outcome is the same under any other build configuration and
pointer-attribute oracle. -/
theorem C10_other_place_trusted (env : Env) (data : Ptr) (shape : IntArray)
    (dtype : DataType) (layout : DataLayout) (place : Place) (deleter : Deleter)
    (s : ThreadState) (hdata : data ≠ nullptr) (hshape : shape.FromTensor = false)
    (hkind : place.GetType ≠ AllocationType.UNDEFINED ∧
      place.GetType ≠ AllocationType.CPU ∧ place.GetType ≠ AllocationType.GPU) :
    (∃ t, (from_blob env data shape dtype layout place deleter s).1 = Except.ok t ∧
      t.impl.holder.place = place) ∧
    ∀ env2 : Env, env2.SizeOf = env.SizeOf → env2.meta_is_scalar = env.meta_is_scalar →
      from_blob env2 data shape dtype layout place deleter s =
        from_blob env data shape dtype layout place deleter s := by
  have hdp : ∀ e : Env, from_blob_data_place e data place = Except.ok place := by
    intro e
    unfold from_blob_data_place
    rw [if_neg]
    rintro (h | h | h)
    · exact hkind.1 h
    · exact hkind.2.1 h
    · exact hkind.2.2 h
  refine ⟨?_, ?_⟩
  · rw [from_blob_of_data_place env data shape dtype layout place deleter s place hdata
      hshape (hdp env)]
    exact ⟨_, rfl, rfl⟩
  · intro env2 hS hM
    rw [from_blob_of_data_place env data shape dtype layout place deleter s place hdata
      hshape (hdp env),
      from_blob_of_data_place env2 data shape dtype layout place deleter s place hdata
      hshape (hdp env2)]
    have hmeta : make_meta env2 dtype (make_ddim shape.GetData) layout =
        make_meta env dtype (make_ddim shape.GetData) layout := by
      simp [make_meta, hM]
    have hsize : ∀ m : DenseTensorMeta,
        from_blob_size env2 dtype m = from_blob_size env dtype m := by
      intro m
      simp [from_blob_size, hS]
    rw [hmeta, hsize]

/-- Witness of C10: in a CUDA 9 build, where `GetPlaceFromPtr` throws for every
pointer, wrapping a pointer with a place of another kind succeeds and keeps
that place, although the oracle reports device 1 for the pointer. -/
theorem C10_other_place_trusted_witness :
    GetPlaceFromPtr (example_env true false 9000) 0x7000 =
      Except.error (errors.Unimplemented
        "The GetPlaceFromPtr() method is only supported when CUDA version >= 10.0." []) ∧
    ∃ t, (from_blob (example_env true false 9000) 0x7000 ⟨[2, 3, 4], false⟩
        example_FLOAT32 example_NCHW ⟨AllocationType.OTHER 4, 0⟩ none
        ThreadState.init).1 = Except.ok t ∧
      t.impl.holder.place = ⟨AllocationType.OTHER 4, 0⟩ :=
  ⟨rfl, (C10_other_place_trusted (example_env true false 9000) 0x7000 ⟨[2, 3, 4], false⟩
    example_FLOAT32 example_NCHW ⟨AllocationType.OTHER 4, 0⟩ none ThreadState.init
    (by decide) rfl ⟨by decide, by decide, by decide⟩).1⟩


/-- C11: `GetPlaceFromPtr` returns in every build other than CUDA below 10.0,
and whenever it returns, its result is the GPU place of the reported device
index exactly when accelerator support (CUDA or HIP) is compiled in and the
pointer-attribute query succeeds and reports device memory, and the host place
in every other case; so the result is the host place or a GPU place and never
of kind UNDEFINED. -/
theorem C11_resolver_result (env : Env) (data : Ptr) :
    ((env.PADDLE_WITH_CUDA = true → 10000 ≤ env.CUDA_VERSION) →
      ∃ r, GetPlaceFromPtr env data = Except.ok r) ∧
    ∀ r, GetPlaceFromPtr env data = Except.ok r →
      (((env.PADDLE_WITH_CUDA = true ∨ env.PADDLE_WITH_HIP = true) ∧
          (env.PointerGetAttributes data).status = true ∧
          (env.PointerGetAttributes data).type = MemoryType.Device) →
        r = GPUPlace (env.PointerGetAttributes data).device) ∧
      (¬ ((env.PADDLE_WITH_CUDA = true ∨ env.PADDLE_WITH_HIP = true) ∧
          (env.PointerGetAttributes data).status = true ∧
          (env.PointerGetAttributes data).type = MemoryType.Device) →
        r = CPUPlace) ∧
      (r.GetType = AllocationType.GPU ↔
        ((env.PADDLE_WITH_CUDA = true ∨ env.PADDLE_WITH_HIP = true) ∧
          (env.PointerGetAttributes data).status = true ∧
          (env.PointerGetAttributes data).type = MemoryType.Device)) ∧
      r.GetType ≠ AllocationType.UNDEFINED ∧
      (r = CPUPlace ∨ ∃ d, r = GPUPlace d) := by
  refine ⟨?_, ?_⟩
  · intro hver
    unfold GetPlaceFromPtr
    dsimp only
    split_ifs <;> first | exact ⟨_, rfl⟩ | (exfalso; simp_all)
  · intro r h
    by_cases hc : (env.PADDLE_WITH_CUDA = true ∨ env.PADDLE_WITH_HIP = true) ∧
        (env.PointerGetAttributes data).status = true ∧
        (env.PointerGetAttributes data).type = MemoryType.Device
    · have hr : r = GPUPlace (env.PointerGetAttributes data).device :=
        GetPlaceFromPtr_ok_of_device env data r h hc.1 hc.2.1 hc.2.2
      refine ⟨fun _ => hr, fun hn => absurd hc hn, ?_, ?_, Or.inr ⟨_, hr⟩⟩
      · rw [hr]
        simp [hc, GPUPlace, Place.GetType]
      · rw [hr]
        simp [GPUPlace, Place.GetType]
    · have hr : r = CPUPlace := by
        by_cases hacc : env.PADDLE_WITH_CUDA = true ∨ env.PADDLE_WITH_HIP = true
        · exact GetPlaceFromPtr_ok_of_not_device env data r h (fun hd => hc ⟨hacc, hd⟩)
        · unfold GetPlaceFromPtr at h
          dsimp only at h
          split_ifs at h <;> simp_all
      refine ⟨fun hy => absurd hy hc, fun _ => hr, ?_, ?_, Or.inl hr⟩
      · rw [hr]
        simp [hc, CPUPlace, Place.GetType]
      · rw [hr]
        simp [CPUPlace, Place.GetType]

/-- Witness of C11: in a HIP build the example oracle reports device 1 for
address 0x7000 and `GetPlaceFromPtr` returns `GPUPlace 1`; in a build without
accelerator support it returns the host place for the same address. -/
theorem C11_resolver_result_witness :
    GetPlaceFromPtr (example_env false true 0) 0x7000 = Except.ok (GPUPlace 1) ∧
    (GPUPlace 1).GetType = AllocationType.GPU ∧
    GetPlaceFromPtr (example_env false false 0) 0x7000 = Except.ok CPUPlace ∧
    CPUPlace.GetType ≠ AllocationType.UNDEFINED :=
  ⟨rfl,
    (((C11_resolver_result (example_env false true 0) 0x7000).2 (GPUPlace 1) rfl).2.2.1).mpr
      ⟨Or.inr rfl, rfl, rfl⟩,
    rfl,
    ((C11_resolver_result (example_env false false 0) 0x7000).2 CPUPlace rfl).2.2.2.1⟩

/-- C13: in a CUDA build with `CUDA_VERSION` below 10000, `GetPlaceFromPtr`
throws Unimplemented for every pointer, and `from_blob` with a non-null
pointer, a literal shape and a caller place of kind UNDEFINED, CPU or GPU
throws Unimplemented and leaves the thread state unchanged. -/
theorem C13_old_cuda_unimplemented (env : Env) (data : Ptr) (shape : IntArray)
    (dtype : DataType) (layout : DataLayout) (place : Place) (deleter : Deleter)
    (s : ThreadState) (hcuda : env.PADDLE_WITH_CUDA = true)
    (hver : env.CUDA_VERSION < 10000) :
    (∀ p : Ptr, ∃ e, GetPlaceFromPtr env p = Except.error e ∧
      e.code = ErrorCode.Unimplemented) ∧
    (data ≠ nullptr → shape.FromTensor = false →
      (place.GetType = AllocationType.UNDEFINED ∨ place.GetType = AllocationType.CPU ∨
        place.GetType = AllocationType.GPU) →
      ∃ e, from_blob env data shape dtype layout place deleter s = (Except.error e, s) ∧
        e.code = ErrorCode.Unimplemented) := by
  have hres : ∀ p : Ptr, GetPlaceFromPtr env p = Except.error (errors.Unimplemented
      "The GetPlaceFromPtr() method is only supported when CUDA version >= 10.0." []) := by
    intro p
    unfold GetPlaceFromPtr
    have hnot : ¬ env.CUDA_VERSION ≥ 10000 := Nat.not_le.mpr hver
    simp [hcuda, hnot]
  refine ⟨fun p => ⟨_, hres p, rfl⟩, ?_⟩
  intro hdata hshape hkind
  have hdp : from_blob_data_place env data place = Except.error (errors.Unimplemented
      "The GetPlaceFromPtr() method is only supported when CUDA version >= 10.0." []) := by
    unfold from_blob_data_place
    rw [if_pos hkind, hres data]
  exact ⟨_, from_blob_error_of_data_place env data shape dtype layout place deleter s _
    hdata hshape hdp, rfl⟩

/-- Witness of C13: in a CUDA 9 build, wrapping a valid pointer with the host
place throws Unimplemented. -/
theorem C13_old_cuda_unimplemented_witness :
    ∃ e, from_blob (example_env true false 9000) 0x1000 ⟨[2, 3, 4], false⟩
        example_FLOAT32 example_NCHW CPUPlace (some 7) ThreadState.init =
          (Except.error e, ThreadState.init) ∧
      e.code = ErrorCode.Unimplemented :=
  (C13_old_cuda_unimplemented (example_env true false 9000) 0x1000 ⟨[2, 3, 4], false⟩
    example_FLOAT32 example_NCHW CPUPlace (some 7) ThreadState.init rfl
    (by decide)).2 (by decide) rfl (Or.inr (Or.inl rfl))


/-! ### Outcome of the placement step -/

theorem GetPlaceFromPtr_returns (env : Env) (data : Ptr)
    (hbuild : env.PADDLE_WITH_CUDA = true → 10000 ≤ env.CUDA_VERSION) :
    ∃ r, GetPlaceFromPtr env data = Except.ok r := by
  unfold GetPlaceFromPtr
  dsimp only
  split_ifs <;> first | exact ⟨_, rfl⟩ | (exfalso; simp_all)

theorem from_blob_data_place_of_resolved (env : Env) (data : Ptr) (place r : Place)
    (hres : GetPlaceFromPtr env data = Except.ok r) :
    from_blob_data_place env data place =
      if (place.GetType = AllocationType.CPU ∨ place.GetType = AllocationType.GPU) ∧
          place ≠ r then
        Except.error (errors.InvalidArgument
          "Specified place does not match place of data. "
          ["Specified: %s, Exptected: %s.", env.DebugString r, env.DebugString place])
      else if place.GetType = AllocationType.UNDEFINED ∨
          place.GetType = AllocationType.CPU ∨ place.GetType = AllocationType.GPU then
        Except.ok r
      else
        Except.ok place := by
  unfold from_blob_data_place
  rw [hres]
  dsimp only
  by_cases hU : place.GetType = AllocationType.UNDEFINED
  · simp [hU]
  · by_cases hK : place.GetType = AllocationType.CPU ∨ place.GetType = AllocationType.GPU
    · have hinf : place.GetType = AllocationType.UNDEFINED ∨
          place.GetType = AllocationType.CPU ∨ place.GetType = AllocationType.GPU :=
        Or.inr hK
      by_cases hEq : r = place
      · have hne : ¬ place ≠ r := fun h => h hEq.symm
        simp [hinf, hU, hK, hEq]
      · have hne : place ≠ r := fun h => hEq h.symm
        simp [hinf, hU, hK, hEq, hne]
    · have hinf : ¬ (place.GetType = AllocationType.UNDEFINED ∨
          place.GetType = AllocationType.CPU ∨ place.GetType = AllocationType.GPU) := by
        rintro (h | h)
        · exact hU h
        · exact hK h
      simp [hK, hU]

theorem from_blob_data_place_error_cases (env : Env) (data : Ptr) (place : Place)
    (e : ErrorSummary) (h : from_blob_data_place env data place = Except.error e) :
    GetPlaceFromPtr env data = Except.error e ∨
      ∃ r, GetPlaceFromPtr env data = Except.ok r ∧
        (place.GetType = AllocationType.CPU ∨ place.GetType = AllocationType.GPU) ∧
        place ≠ r ∧ e.code = ErrorCode.InvalidArgument := by
  cases hres : GetPlaceFromPtr env data with
  | error e2 =>
    left
    unfold from_blob_data_place at h
    rw [hres] at h
    split_ifs at h <;> simp_all
  | ok r =>
    right
    rw [from_blob_data_place_of_resolved env data place r hres] at h
    split_ifs at h with h1
    simp only [Except.error.injEq] at h
    exact ⟨r, rfl, h1.1, h1.2, by rw [← h]; rfl⟩

/-- C12: a call of `from_blob` that fails has one of four causes (null pointer,
shape built from a tensor, `GetPlaceFromPtr` throwing, or a CPU/GPU caller
place that differs from the resolved place), and it leaves the thread state as
it was: no allocation is added to the live ones, the thread-local callback
slot keeps its value (the supplied deleter is not captured), and no callback
is invoked. -/
theorem C12_failure_leaves_state (env : Env) (data : Ptr) (shape : IntArray)
    (dtype : DataType) (layout : DataLayout) (place : Place) (deleter : Deleter)
    (s : ThreadState) (e : ErrorSummary)
    (hfail : (from_blob env data shape dtype layout place deleter s).1 = Except.error e) :
    (from_blob env data shape dtype layout place deleter s).2 = s ∧
    (from_blob env data shape dtype layout place deleter s).2.live = s.live ∧
    (from_blob env data shape dtype layout place deleter s).2.g_deleter = s.g_deleter ∧
    (from_blob env data shape dtype layout place deleter s).2.calls = s.calls ∧
    (data = nullptr ∨ shape.FromTensor = true ∨
      GetPlaceFromPtr env data = Except.error e ∨
      ∃ r, GetPlaceFromPtr env data = Except.ok r ∧
        (place.GetType = AllocationType.CPU ∨ place.GetType = AllocationType.GPU) ∧
        place ≠ r) := by
  have key : (from_blob env data shape dtype layout place deleter s).2 = s ∧
      (data = nullptr ∨ shape.FromTensor = true ∨
        GetPlaceFromPtr env data = Except.error e ∨
        ∃ r, GetPlaceFromPtr env data = Except.ok r ∧
          (place.GetType = AllocationType.CPU ∨ place.GetType = AllocationType.GPU) ∧
          place ≠ r) := by
    by_cases hdata : data = nullptr
    · exact ⟨by simp [from_blob, hdata], Or.inl hdata⟩
    · by_cases hshape : shape.FromTensor = false
      · cases hdp : from_blob_data_place env data place with
        | error e2 =>
          have hcall := from_blob_error_of_data_place env data shape dtype layout place
            deleter s e2 hdata hshape hdp
          rw [hcall] at hfail
          simp only [Except.error.injEq] at hfail
          subst hfail
          refine ⟨by rw [hcall], Or.inr (Or.inr ?_)⟩
          rcases from_blob_data_place_error_cases env data place e2 hdp with h | ⟨r, h1, h2, h3, _⟩
          · exact Or.inl h
          · exact Or.inr ⟨r, h1, h2, h3⟩
        | ok dp =>
          rw [from_blob_of_data_place env data shape dtype layout place deleter s dp hdata
            hshape hdp] at hfail
          simp at hfail
      · have hft : shape.FromTensor = true := by
          cases h : shape.FromTensor
          · exact absurd h hshape
          · rfl
        exact ⟨by simp [from_blob, hdata, hft], Or.inr (Or.inl hft)⟩
  refine ⟨key.1, ?_, ?_, ?_, key.2⟩ <;> rw [key.1]

/-- Witness of C12: a place mismatch on a thread whose slot is still empty,
with deleter 7 supplied, fails and leaves the fresh thread state: nothing
live, the slot empty, no callback invoked. -/
theorem C12_failure_leaves_state_witness :
    (from_blob (example_env true false 11000) 0x1000 ⟨[2, 3, 4], false⟩ example_FLOAT32
      example_NCHW (GPUPlace 0) (some 7) ThreadState.init).2 = ThreadState.init :=
  (C12_failure_leaves_state (example_env true false 11000) 0x1000 ⟨[2, 3, 4], false⟩
    example_FLOAT32 example_NCHW (GPUPlace 0) (some 7) ThreadState.init
    (errors.InvalidArgument "Specified place does not match place of data. "
      ["Specified: %s, Exptected: %s.", example_DebugString CPUPlace,
        example_DebugString (GPUPlace 0)]) rfl).1


/-- C14: in a build where `GetPlaceFromPtr` cannot throw (no CUDA, or CUDA with
`CUDA_VERSION` at least 10000), the pointer resolves to a place `r`, and
`from_blob` fails if and only if the pointer is null, or the shape is built
from a tensor, or the caller's place is of kind CPU or GPU and differs from
`r`; every failure is an InvalidArgument error, and in every other case a
tensor is returned. -/
theorem C14_failure_iff (env : Env) (data : Ptr) (shape : IntArray)
    (dtype : DataType) (layout : DataLayout) (place : Place) (deleter : Deleter)
    (s : ThreadState)
    (hbuild : env.PADDLE_WITH_CUDA = true → 10000 ≤ env.CUDA_VERSION) :
    ∃ r, GetPlaceFromPtr env data = Except.ok r ∧
      ((∃ e, (from_blob env data shape dtype layout place deleter s).1 = Except.error e) ↔
        (data = nullptr ∨ shape.FromTensor = true ∨
          ((place.GetType = AllocationType.CPU ∨ place.GetType = AllocationType.GPU) ∧
            place ≠ r))) ∧
      (∀ e, (from_blob env data shape dtype layout place deleter s).1 = Except.error e →
        e.code = ErrorCode.InvalidArgument) ∧
      (¬ (data = nullptr ∨ shape.FromTensor = true ∨
          ((place.GetType = AllocationType.CPU ∨ place.GetType = AllocationType.GPU) ∧
            place ≠ r)) →
        ∃ t, (from_blob env data shape dtype layout place deleter s).1 = Except.ok t) := by
  obtain ⟨r, hr⟩ := GetPlaceFromPtr_returns env data hbuild
  have hdp := from_blob_data_place_of_resolved env data place r hr
  have key : ((data = nullptr ∨ shape.FromTensor = true ∨
        ((place.GetType = AllocationType.CPU ∨ place.GetType = AllocationType.GPU) ∧
          place ≠ r)) ∧
      ∃ e, (from_blob env data shape dtype layout place deleter s).1 = Except.error e ∧
        e.code = ErrorCode.InvalidArgument) ∨
      (¬ (data = nullptr ∨ shape.FromTensor = true ∨
        ((place.GetType = AllocationType.CPU ∨ place.GetType = AllocationType.GPU) ∧
          place ≠ r)) ∧
      ∃ t, (from_blob env data shape dtype layout place deleter s).1 = Except.ok t) := by
    by_cases hdata : data = nullptr
    · left
      exact ⟨Or.inl hdata, errors.InvalidArgument "data can not be nullptr." [],
        by simp [from_blob, hdata], rfl⟩
    · by_cases hshape : shape.FromTensor = false
      · have hnft : ¬ shape.FromTensor = true := by simp [hshape]
        by_cases hmis : (place.GetType = AllocationType.CPU ∨
            place.GetType = AllocationType.GPU) ∧ place ≠ r
        · left
          rw [if_pos hmis] at hdp
          refine ⟨Or.inr (Or.inr hmis), errors.InvalidArgument
            "Specified place does not match place of data. "
            ["Specified: %s, Exptected: %s.", env.DebugString r, env.DebugString place],
            ?_, rfl⟩
          rw [from_blob_error_of_data_place env data shape dtype layout place deleter s _
            hdata hshape hdp]
        · right
          rw [if_neg hmis] at hdp
          refine ⟨?_, ?_⟩
          · rintro (h | h | h)
            · exact hdata h
            · exact hnft h
            · exact hmis h
          · by_cases hinf : place.GetType = AllocationType.UNDEFINED ∨
                place.GetType = AllocationType.CPU ∨ place.GetType = AllocationType.GPU
            · rw [if_pos hinf] at hdp
              rw [from_blob_of_data_place env data shape dtype layout place deleter s r
                hdata hshape hdp]
              exact ⟨_, rfl⟩
            · rw [if_neg hinf] at hdp
              rw [from_blob_of_data_place env data shape dtype layout place deleter s place
                hdata hshape hdp]
              exact ⟨_, rfl⟩
      · have hft : shape.FromTensor = true := by
          cases h : shape.FromTensor
          · exact absurd h hshape
          · rfl
        left
        exact ⟨Or.inr (Or.inl hft),
          errors.InvalidArgument "shape cannot be constructed from a Tensor." [],
          by simp [from_blob, hdata, hft], rfl⟩
  refine ⟨r, hr, ?_, ?_, ?_⟩
  · constructor
    · rintro ⟨e, he⟩
      rcases key with ⟨hc, _⟩ | ⟨_, t, ht⟩
      · exact hc
      · rw [ht] at he
        simp at he
    · intro hc
      rcases key with ⟨_, e, he, _⟩ | ⟨hn, _⟩
      · exact ⟨e, he⟩
      · exact absurd hc hn
  · intro e he
    rcases key with ⟨_, e2, he2, hcode⟩ | ⟨_, t, ht⟩
    · rw [he2] at he
      simp only [Except.error.injEq] at he
      rw [← he]
      exact hcode
    · rw [ht] at he
      simp at he
  · intro hn
    rcases key with ⟨hc, _⟩ | ⟨_, ht⟩
    · exact absurd hc hn
    · exact ht

/-- Witness of C14: the statement for a CUDA 11 build, a pointer the oracle
places on device 1, and the caller place `GPUPlace 1`. -/
theorem C14_failure_iff_witness :
    ∃ r, GetPlaceFromPtr (example_env true false 11000) 0x7000 = Except.ok r ∧
      ((∃ e, (from_blob (example_env true false 11000) 0x7000 ⟨[2, 3, 4], false⟩
          example_FLOAT32 example_NCHW (GPUPlace 1) none ThreadState.init).1 =
            Except.error e) ↔
        ((0x7000 : Ptr) = nullptr ∨ (⟨[2, 3, 4], false⟩ : IntArray).FromTensor = true ∨
          (((GPUPlace 1).GetType = AllocationType.CPU ∨
            (GPUPlace 1).GetType = AllocationType.GPU) ∧ GPUPlace 1 ≠ r))) ∧
      (∀ e, (from_blob (example_env true false 11000) 0x7000 ⟨[2, 3, 4], false⟩
          example_FLOAT32 example_NCHW (GPUPlace 1) none ThreadState.init).1 =
            Except.error e → e.code = ErrorCode.InvalidArgument) ∧
      (¬ ((0x7000 : Ptr) = nullptr ∨ (⟨[2, 3, 4], false⟩ : IntArray).FromTensor = true ∨
          (((GPUPlace 1).GetType = AllocationType.CPU ∨
            (GPUPlace 1).GetType = AllocationType.GPU) ∧ GPUPlace 1 ≠ r)) →
        ∃ t, (from_blob (example_env true false 11000) 0x7000 ⟨[2, 3, 4], false⟩
          example_FLOAT32 example_NCHW (GPUPlace 1) none ThreadState.init).1 =
            Except.ok t) :=
  C14_failure_iff (example_env true false 11000) 0x7000 ⟨[2, 3, 4], false⟩
    example_FLOAT32 example_NCHW (GPUPlace 1) none ThreadState.init (fun _ => by decide)

/-- C15 (evaluation at the failing input): in a CUDA 11 build, wrapping a
pointer that resolves to the host place with caller place `GPUPlace 0` throws
InvalidArgument; the arguments that follow the template
"Specified: %s, Exptected: %s." are first the text of the resolved place
(host) and second the text of the caller's place (`GPUPlace 0`), so the value
in the "Specified:" position is the resolved place, not the caller's. -/
theorem C15_mismatch_values_swapped :
    GetPlaceFromPtr (example_env true false 11000) 0x1000 = Except.ok CPUPlace ∧
    (from_blob (example_env true false 11000) 0x1000 ⟨[2, 3, 4], false⟩ example_FLOAT32
        example_NCHW (GPUPlace 0) none ThreadState.init).1 =
      Except.error ⟨ErrorCode.InvalidArgument,
        "Specified place does not match place of data. ",
        ["Specified: %s, Exptected: %s.", "Place(cpu)", "Place(gpu:0)"]⟩ ∧
    (example_env true false 11000).DebugString CPUPlace = "Place(cpu)" ∧
    (example_env true false 11000).DebugString (GPUPlace 0) = "Place(gpu:0)" := by
  refine ⟨rfl, rfl, by decide, by decide⟩

end paddle
